import Mathlib

/-!
Verification of the AutoSub plugin core (plugins/autosub/__init__.py).

We shallowly embed the orchestration code of the plugin:
  * `process_video_subtitle` embeds `AutoSub.__process_video_subtitle`,
  * `run_pool` / `process_folder_subtitle` embed `AutoSub.__process_folder_subtitle`,
  * `do_autosub_loop` / `do_autosub` embed `AutoSub._do_autosub`,
  * `init_plugin` embeds `AutoSub.init_plugin`.

External collaborators that the source calls but whose bodies are not part of
the embedded code (`os.path.getsize`, `__target_subtitle_exists`,
`__generate_subtitle`, `__translate_zh_subtitle`, `__check_asr`,
`__get_library_files`, the filesystem predicates and the ChatGPT plugin
configuration) are supplied as oracle values in environment records; each call
site consumes the oracle exactly where the source performs the call, and a
`.error` value models the call raising a Python exception.  Python exceptions
are modelled by `Except Unit`; log lines and notifications that the claims
refer to are recorded as `Event`s.
-/

namespace AutoSub

instance instDecEqExcept {ε α : Type} [DecidableEq ε] [DecidableEq α] :
    DecidableEq (Except ε α) := fun a b =>
  match a, b with
  | .ok x, .ok y =>
    if h : x = y then .isTrue (by rw [h]) else .isFalse (by intro hc; cases hc; exact h rfl)
  | .error x, .error y =>
    if h : x = y then .isTrue (by rw [h]) else .isFalse (by intro hc; cases hc; exact h rfl)
  | .ok _, .error _ => .isFalse (by intro hc; cases hc)
  | .error _, .ok _ => .isFalse (by intro hc; cases hc)

/-- Mutable per-plugin state: the `_running` flag, the four run counters and
the configuration attributes that `init_plugin` stores on `self` and that the
job code reads back.  Counters mirror `process_count`, `skip_count`,
`fail_count`, `success_count`. -/
structure PluginState where
  running : Bool
  process_count : Nat
  skip_count : Nat
  fail_count : Nat
  success_count : Nat
  file_size : Option String
  translate_zh : Bool
  translate_only : Bool
  send_notify : Bool
  whisper_main : Option String
  whisper_model : Option String
  additional_args : String
  asr_engine : String
  faster_whisper_model : String
  deriving Repr, DecidableEq

/-- Observable actions of a run: log lines the claims mention, notifications
(`post_message`), invocations of the subtitle generator
(`__generate_subtitle`), invocations of the translator
(`__translate_zh_subtitle`, recording its source and destination paths), the
stack trace printed by the job-boundary handler, and the final summary line
with the four counters. -/
inductive Event where
  | dirStart (path : String)
  | warn (tag : String)
  | notify (name tag : String)
  | generateCall (file : String)
  | translateCall (src dst : String)
  | stackTrace
  | summary (succ skip fail total : Nat)
  deriving Repr, DecidableEq

/-- Oracle for the external calls one per-file job performs, in source order:
`os.path.getsize`, `__target_subtitle_exists`, `__generate_subtitle`
(returning the pair `(ret, lang)`), `__translate_zh_subtitle`.
A `.error ()` value means the call raises.

Modelled from the spec: `__translate_zh_subtitle` is not part of the embedded
source; per the spec, a failure of the translation backend is absorbed inside
the step (recorded/logged but not raised), so `translate = .ok false` models a
translation-backend failure that returns normally, while `.error ()` models an
unexpected exception escaping the call. -/
structure JobEnv where
  getsize : Except Unit Nat
  target_exists : Except Unit Bool
  generate : Except Unit (Bool × String)
  translate : Except Unit Bool
  deriving Repr, DecidableEq

/-- Python truthiness of an optional string: `None` and the empty string are
falsy. -/
def pyFalsyStr : Option String → Bool
  | none => true
  | some s => s = ""

/-- All characters are ASCII digits. -/
def isDigits : List Char → Bool
  | [] => true
  | c :: cs => c.isDigit && isDigits cs

/-- Decimal value of a digit list, most significant first. -/
def digitsToNat (acc : Nat) : List Char → Nat
  | [] => acc
  | c :: cs => digitsToNat (acc * 10 + (c.toNat - 48)) cs

/-- Python `str.isdigit` restricted to ASCII digits: non-empty and all
digits. -/
def pyIsDigit (s : String) : Bool :=
  !s.data.isEmpty && isDigits s.data

/-- Python `int(self.file_size)`: raises on `None` and on a string that is not
a plain decimal numeral. -/
def pyInt : Option String → Except Unit Nat
  | none => .error ()
  | some s =>
    if pyIsDigit s then .ok (digitsToNat 0 s.data) else .error ()

/-- Index of the last occurrence of a character in a character list. -/
def lastIndexOf (cs : List Char) (c : Char) : Option Nat :=
  (List.range cs.length).foldl
    (fun acc i => if cs.get? i = some c then some i else acc) none

/-- The root of `os.path.splitext(p)`: cut at the last dot of the final path
component, unless that dot is part of a leading run of dots in the component
(Python's splitext rule). -/
def splitextBase (p : String) : String :=
  let cs := p.data
  let stem : Nat :=
    match lastIndexOf cs '/' with
    | none => 0
    | some s => s + 1
  match lastIndexOf cs '.' with
  | none => p
  | some d =>
    if stem ≤ d then
      if (List.range' stem (d - stem)).any (fun j => cs.get? j ≠ some '.') then
        ⟨cs.take d⟩
      else p
    else p

/-- `os.path.basename`. -/
def basename (p : String) : String :=
  (p.splitOn "/").getLastD p

/-- The sidecar subtitle path `f"{base}.{lang}.srt"`. -/
def mkSrtPath (base lang : String) : String :=
  base ++ "." ++ lang ++ ".srt"

/-- The notification the job posts when `send_notify` is configured
(`self.post_message`).  Modelled from the spec: the Notifier is
fire-and-forget and its failures never fail the job, so posting never
raises. -/
def notifyIf (send : Bool) (name tag : String) : List Event :=
  if send then [Event.notify name tag] else []

/-- Embedding of `AutoSub.__process_video_subtitle`.  Returns the new state,
the events emitted, and `some ()` when an exception escapes the method (only
possible before the `try` block: the `os.path.getsize` call and the
`int(self.file_size)` conversion of the size check happen outside it). -/
def process_video_subtitle (st : PluginState) (video_file : Option String)
    (env : JobEnv) : PluginState × List Event × Option Unit :=
  -- `if not video_file: return`
  if pyFalsyStr video_file then (st, [], none) else
  -- `if os.path.getsize(video_file) < int(self.file_size): return`  (outside try)
  match env.getsize with
  | .error e => (st, [], some e)
  | .ok size =>
    match pyInt st.file_size with
    | .error e => (st, [], some e)
    | .ok threshold =>
      if size < threshold then (st, [], none) else
      -- `self.process_count += 1`
      let st1 : PluginState := { st with process_count := st.process_count + 1 }
      let vf := video_file.getD ""
      let file_path := splitextBase vf
      let file_name := basename vf
      -- try:
      match env.target_exists with
      | .error _ =>
        -- except-handler: notify (if configured), print stack trace, fail += 1
        ({ st1 with fail_count := st1.fail_count + 1 },
         notifyIf st1.send_notify file_name "failed" ++ [Event.stackTrace], none)
      | .ok true =>
        ({ st1 with skip_count := st1.skip_count + 1 },
         [Event.warn "subtitle_exists"], none)
      | .ok false =>
        let evs1 := notifyIf st1.send_notify file_name "start" ++ [Event.generateCall vf]
        match env.generate with
        | .error _ =>
          ({ st1 with fail_count := st1.fail_count + 1 },
           evs1 ++ notifyIf st1.send_notify file_name "failed" ++ [Event.stackTrace], none)
        | .ok (ret, lang) =>
          if ret = false then
            if st1.translate_only then
              ({ st1 with skip_count := st1.skip_count + 1 },
               evs1 ++ notifyIf st1.send_notify file_name "nothing_to_translate", none)
            else
              ({ st1 with fail_count := st1.fail_count + 1 },
               evs1 ++ notifyIf st1.send_notify file_name "generate_failed", none)
          else if st1.translate_zh then
            -- `self.__translate_zh_subtitle(lang, f"{file_path}.{lang}.srt", f"{file_path}.zh.srt")`
            let evs2 := evs1 ++ notifyIf st1.send_notify file_name "translate_start" ++
              [Event.translateCall (mkSrtPath file_path lang) (mkSrtPath file_path "zh")]
            match env.translate with
            | .error _ =>
              ({ st1 with fail_count := st1.fail_count + 1 },
               evs2 ++ notifyIf st1.send_notify file_name "failed" ++ [Event.stackTrace], none)
            | .ok _ =>
              ({ st1 with success_count := st1.success_count + 1 },
               evs2 ++ notifyIf st1.send_notify file_name "done", none)
          else
            ({ st1 with success_count := st1.success_count + 1 },
             evs1 ++ notifyIf st1.send_notify file_name "done", none)

/-- The worker-pool body of `AutoSub.__process_folder_subtitle`: one job per
video file; an exception escaping a job is caught at `future.result()` and
logged, and the remaining jobs are still collected.  Completion order is
embedded as the order of the input list. -/
def run_pool (st : PluginState) (files : List (Option String × JobEnv)) :
    PluginState × List Event :=
  match files with
  | [] => (st, [])
  | fe :: rest =>
    let r := process_video_subtitle st fe.1 fe.2
    let tail := run_pool r.1 rest
    (tail.1,
     r.2.1 ++
       (match r.2.2 with
        | some _ => [Event.warn "job_exception"]
        | none => []) ++ tail.2)

/-- Embedding of `AutoSub.__process_folder_subtitle`.  The scan oracle models
`list(self.__get_library_files(path))`, whose enumeration may raise; that
exception escapes the method. -/
def process_folder_subtitle (st : PluginState)
    (scan : Except Unit (List (Option String × JobEnv))) :
    PluginState × List Event × Option Unit :=
  match scan with
  | .error e => (st, [], some e)
  | .ok files =>
    if files.isEmpty then (st, [], none)
    else
      let r := run_pool st files
      (r.1, r.2, none)

/-- Per-directory oracle: the three `os.path` predicates the loop checks and
the library scan. -/
structure DirEnv where
  path_exists : Bool
  is_dir : Bool
  is_abs : Bool
  scan : Except Unit (List (Option String × JobEnv))
  deriving Repr, DecidableEq

/-- The `for path in path_list` loop body of `AutoSub._do_autosub`; an
exception escaping a directory aborts the loop (it is caught by the `except`
of `_do_autosub`). -/
def do_autosub_loop (st : PluginState) (dirs : List (String × DirEnv)) :
    PluginState × List Event × Option Unit :=
  match dirs with
  | [] => (st, [], none)
  | (path, denv) :: rest =>
    -- `if not os.path.exists / isdir / isabs: warn; continue`
    if denv.path_exists then
      if denv.is_dir then
        if denv.is_abs then
          let rf := process_folder_subtitle st denv.scan
          match rf.2.2 with
          | some e => (rf.1, Event.dirStart path :: rf.2.1, some e)
          | none =>
            let r := do_autosub_loop rf.1 rest
            (r.1, Event.dirStart path :: (rf.2.1 ++ r.2.1), r.2.2)
        else
          let r := do_autosub_loop st rest
          (r.1, Event.dirStart path :: Event.warn "not_abs" :: r.2.1, r.2.2)
      else
        let r := do_autosub_loop st rest
        (r.1, Event.dirStart path :: Event.warn "not_a_dir" :: r.2.1, r.2.2)
    else
      let r := do_autosub_loop st rest
      (r.1, Event.dirStart path :: Event.warn "dir_missing" :: r.2.1, r.2.2)

/-- Embedding of `AutoSub._do_autosub`: sets `_running`, zeroes the counters,
runs the directory loop, catches any exception of the loop (`except
Exception`), and in the `finally` block emits the summary line and resets
`_running` to `False`. -/
def do_autosub (st : PluginState) (dirs : List (String × DirEnv)) :
    PluginState × List Event :=
  let st0 : PluginState :=
    { st with
      running := true
      process_count := 0
      skip_count := 0
      fail_count := 0
      success_count := 0 }
  let r := do_autosub_loop st0 dirs
  let evs := r.2.1 ++
    (match r.2.2 with
     | some _ => [Event.warn "run_exception"]
     | none => [])
  ({ r.1 with running := false },
   evs ++ [Event.summary r.1.success_count r.1.skip_count r.1.fail_count
            r.1.process_count])

/-- The configuration dictionary handed to `init_plugin`: `Option` fields model
keys that `config.get` may find absent, `Bool` fields model the flags the code
reads with a falsy default. -/
structure PyConfig where
  translate_zh : Bool
  path_list : Option String
  file_size : Option String
  whisper_main : Option String
  whisper_model : Option String
  translate_only : Bool
  additional_args : Option String
  send_notify : Bool
  asr_engine : Option String
  faster_whisper_model : Option String
  run_now : Bool
  deriving Repr, DecidableEq

/-- The ChatGPT plugin configuration fetched by `self.get_config("ChatGPT")`. -/
structure ChatGPTConf where
  enabled : Bool
  openai_key : Option String
  openai_url : Option String
  proxy : Bool
  model : Option String
  deriving Repr, DecidableEq

/-- Oracle for the external facts `init_plugin` consumes: the stored ChatGPT
configuration (`none` models a missing/empty one), the iteration order the
Python `set` in `list(set(config.get('path_list').split('\n')))` happens to
produce, and the result of the `__check_asr` engine validation.

Modelled from the spec: `__check_asr` is not part of the embedded source; the
spec treats engine validation as a run-start configuration check that either
passes or aborts the run, so it is a boolean oracle. -/
structure InitEnv where
  chatgpt : Option ChatGPTConf
  set_order : List String
  check_asr : Bool
  deriving Repr, DecidableEq

/-- Result of `init_plugin`: the new plugin state, the configuration passed to
`update_config` if any, the `path_list` handed to the scheduled `_do_autosub`
job if one was scheduled, the emitted events, and `some ()` when an exception
escapes the method (the `.split` call on a missing `path_list` key). -/
structure InitResult where
  state : PluginState
  persisted : Option PyConfig
  scheduled : Option (List String)
  events : List Event
  escaped : Option Unit
  deriving Repr, DecidableEq

/-- The attribute resets at the top of `init_plugin` (lines 82-95 of the
source): configuration attributes get defaults and all four counters are set
to zero.  Note `_running` is not touched. -/
def resetConfigState (st : PluginState) : PluginState :=
  { st with
    additional_args := "-t 4 -p 1"
    translate_zh := false
    translate_only := false
    whisper_model := none
    whisper_main := none
    file_size := none
    process_count := 0
    skip_count := 0
    fail_count := 0
    success_count := 0
    send_notify := false
    asr_engine := "whisper.cpp"
    faster_whisper_model := "base" }

/-- `list(set(raw))` in Python yields some duplicate-free list with exactly
the elements of `raw`, in an unspecified order; `SetRealizes raw order` says
`order` is such a list. -/
def SetRealizes (raw order : List String) : Prop :=
  order.Perm raw.dedup

instance (raw order : List String) : Decidable (SetRealizes raw order) :=
  inferInstanceAs (Decidable (order.Perm raw.dedup))

/-- The part of `init_plugin` from line 119 on (after the ChatGPT gate):
stores the remaining configuration attributes, handles `run_now`, validates
path list and file size, checks the engine, guards on `_running`, and
schedules the `_do_autosub` job. -/
def initAfterChatGPT (st : PluginState) (c : PyConfig) (env : InitEnv) :
    InitResult :=
  -- `path_list = list(set(config.get('path_list').split('\n')))`
  match c.path_list with
  | none =>
    -- `None.split` raises; the exception escapes init_plugin
    { state := st, persisted := none, scheduled := none, events := [],
      escaped := some () }
  | some _ =>
    let path_list := env.set_order
    let st :=
      { st with
        file_size := c.file_size
        whisper_main := c.whisper_main
        whisper_model := c.whisper_model
        translate_only := c.translate_only
        additional_args := c.additional_args.getD "-t 4 -p 1"
        send_notify := c.send_notify
        asr_engine := c.asr_engine.getD "faster_whisper"
        faster_whisper_model := c.faster_whisper_model.getD "base" }
    if ¬c.run_now then
      { state := st, persisted := none, scheduled := none, events := [],
        escaped := none }
    else
      -- `config['run_now'] = False; self.update_config(config)`
      let persisted := some { c with run_now := false }
      if path_list.isEmpty ∨ pyFalsyStr st.file_size then
        { state := st, persisted := persisted, scheduled := none,
          events := [Event.warn "config_incomplete"], escaped := none }
      else if ¬pyIsDigit (st.file_size.getD "") then
        { state := st, persisted := persisted, scheduled := none,
          events := [Event.warn "file_size_not_digit"], escaped := none }
      else if ¬st.translate_only ∧ ¬env.check_asr then
        { state := st, persisted := persisted, scheduled := none,
          events := [], escaped := none }
      else if st.running then
        { state := st, persisted := persisted, scheduled := none,
          events := [Event.warn "previous_run_active"], escaped := none }
      else
        { state := st, persisted := persisted, scheduled := some path_list,
          events := [], escaped := none }

/-- Embedding of `AutoSub.init_plugin`. -/
def init_plugin (st0 : PluginState) (config : Option PyConfig) (env : InitEnv) :
    InitResult :=
  let st := resetConfigState st0
  match config with
  | none =>
    { state := st, persisted := none, scheduled := none, events := [],
      escaped := none }
  | some c =>
    let st := { st with translate_zh := c.translate_zh }
    if c.translate_zh then
      match env.chatgpt with
      | none =>
        { state := st, persisted := none, scheduled := none,
          events := [Event.warn "chatgpt_missing"], escaped := none }
      | some g =>
        if pyFalsyStr g.openai_key then
          { state := st, persisted := none, scheduled := none,
            events := [Event.warn "openai_key_missing"], escaped := none }
        else initAfterChatGPT st c env
    else initAfterChatGPT st c env

/-- The `dirStart` log lines of a trace, in order: which directories were
begun, and in which order. -/
def dirStartsOf : List Event → List String
  | [] => []
  | Event.dirStart p :: es => p :: dirStartsOf es
  | _ :: es => dirStartsOf es



/-- A concrete plugin state used by witnesses and counterexamples: idle, zero
counters, size threshold "100", all optional behavior off. -/
def stBase : PluginState :=
  { running := false, process_count := 0, skip_count := 0, fail_count := 0,
    success_count := 0, file_size := some "100", translate_zh := false,
    translate_only := false, send_notify := false, whisper_main := none,
    whisper_model := none, additional_args := "-t 4 -p 1",
    asr_engine := "faster_whisper", faster_whisper_model := "base" }

/-- A concrete job environment used by witnesses and counterexamples: a large
file, no pre-existing subtitle, generation succeeds detecting English,
translation succeeds. -/
def envOkEn : JobEnv :=
  { getsize := .ok 1000, target_exists := .ok false,
    generate := .ok (true, "en"), translate := .ok true }

/-- A concrete configuration dictionary used by witnesses and
counterexamples: one path, numeric size, translate-only (so the engine check
is skipped), run-now set. -/
def cfgBase : PyConfig :=
  { translate_zh := false, path_list := some "/media", file_size := some "100",
    whisper_main := none, whisper_model := none, translate_only := true,
    additional_args := none, send_notify := false, asr_engine := none,
    faster_whisper_model := none, run_now := true }

/-- A concrete init environment used by witnesses and counterexamples. -/
def envInitBase : InitEnv :=
  { chatgpt := none, set_order := ["/media"], check_asr := true }

/-- Python `raw.split('\n')` (structurally, on the character list): splits at
every newline, keeping empty pieces. -/
def pySplitNl : List Char → List String
  | [] => [""]
  | c :: rest =>
    let r := pySplitNl rest
    if c = '\n' then "" :: r
    else
      match r with
      | [] => [⟨[c]⟩]
      | h :: t => (⟨c :: h.data⟩) :: t

/-- The job-relevant configuration fields of a state: the threshold string and
the three mode flags.  Two states agreeing here run every job identically up
to counters. -/
def jobCfgOf (st : PluginState) : Option String × Bool × Bool × Bool :=
  (st.file_size, st.translate_zh, st.translate_only, st.send_notify)

/-- The events one directory of the run contributes, computed from the base
state alone: the start log line, then either a validation warning or the
events of that directory's worker pool. -/
def dirBlock (st : PluginState) (d : String × DirEnv) : List Event :=
  Event.dirStart d.1 ::
    (if d.2.path_exists then
       if d.2.is_dir then
         if d.2.is_abs then (process_folder_subtitle st d.2.scan).2.1
         else [Event.warn "not_abs"]
       else [Event.warn "not_a_dir"]
     else [Event.warn "dir_missing"])

/-- A directory environment whose path does not exist. -/
def dirMissing : DirEnv :=
  { path_exists := false, is_dir := false, is_abs := false, scan := .ok [] }

/-- A valid directory environment containing one large video file. -/
def dirOkOneFile : DirEnv :=
  { path_exists := true, is_dir := true, is_abs := true,
    scan := .ok [(some "/media/movie.mkv", envOkEn)] }

theorem job_counter_cases (st : PluginState) (vf : Option String) (env : JobEnv) :
    ((process_video_subtitle st vf env).1 = st) ∨
    ((process_video_subtitle st vf env).1.process_count = st.process_count + 1 ∧
      (((process_video_subtitle st vf env).1.success_count = st.success_count + 1 ∧
        (process_video_subtitle st vf env).1.skip_count = st.skip_count ∧
        (process_video_subtitle st vf env).1.fail_count = st.fail_count) ∨
       ((process_video_subtitle st vf env).1.success_count = st.success_count ∧
        (process_video_subtitle st vf env).1.skip_count = st.skip_count + 1 ∧
        (process_video_subtitle st vf env).1.fail_count = st.fail_count) ∨
       ((process_video_subtitle st vf env).1.success_count = st.success_count ∧
        (process_video_subtitle st vf env).1.skip_count = st.skip_count ∧
        (process_video_subtitle st vf env).1.fail_count = st.fail_count + 1))) := by
  unfold process_video_subtitle
  dsimp only
  repeat' split
  all_goals first
    | (left; rfl)
    | (right; exact ⟨rfl, Or.inl ⟨rfl, rfl, rfl⟩⟩)
    | (right; exact ⟨rfl, Or.inr (Or.inl ⟨rfl, rfl, rfl⟩)⟩)
    | (right; exact ⟨rfl, Or.inr (Or.inr ⟨rfl, rfl, rfl⟩)⟩)



theorem job_balance (st : PluginState) (vf : Option String) (env : JobEnv) :
    (process_video_subtitle st vf env).1.success_count +
      (process_video_subtitle st vf env).1.skip_count +
      (process_video_subtitle st vf env).1.fail_count + st.process_count =
    st.success_count + st.skip_count + st.fail_count +
      (process_video_subtitle st vf env).1.process_count := by
  rcases job_counter_cases st vf env with h | ⟨hp, h | h | h⟩
  · rw [h]
  · omega
  · omega
  · omega

theorem run_pool_balance (files : List (Option String × JobEnv)) :
    ∀ st : PluginState,
      (run_pool st files).1.success_count + (run_pool st files).1.skip_count +
        (run_pool st files).1.fail_count + st.process_count =
      st.success_count + st.skip_count + st.fail_count +
        (run_pool st files).1.process_count := by
  induction files with
  | nil => intro st; rfl
  | cons fe rest ih =>
    intro st
    have h1 := job_balance st fe.1 fe.2
    have h2 := ih (process_video_subtitle st fe.1 fe.2).1
    simp only [run_pool]
    omega

theorem folder_balance (st : PluginState)
    (scan : Except Unit (List (Option String × JobEnv))) :
    (process_folder_subtitle st scan).1.success_count +
      (process_folder_subtitle st scan).1.skip_count +
      (process_folder_subtitle st scan).1.fail_count + st.process_count =
    st.success_count + st.skip_count + st.fail_count +
      (process_folder_subtitle st scan).1.process_count := by
  unfold process_folder_subtitle
  match scan with
  | .error e => rfl
  | .ok files =>
    dsimp only
    split
    · rfl
    · exact run_pool_balance files st

theorem loop_balance (dirs : List (String × DirEnv)) :
    ∀ st : PluginState,
      (do_autosub_loop st dirs).1.success_count +
        (do_autosub_loop st dirs).1.skip_count +
        (do_autosub_loop st dirs).1.fail_count + st.process_count =
      st.success_count + st.skip_count + st.fail_count +
        (do_autosub_loop st dirs).1.process_count := by
  induction dirs with
  | nil => intro st; rfl
  | cons d rest ih =>
    intro st
    have hf := folder_balance st d.2.scan
    have h2 := ih (process_folder_subtitle st d.2.scan).1
    have h3 := ih st
    simp only [do_autosub_loop]
    repeat' split
    all_goals dsimp only
    all_goals omega



/-- C1: for every run of `_do_autosub` the final counters satisfy
`processed = succeeded + skipped + failed`, and each per-file job either
leaves the state unchanged or increments `process_count` together with exactly
one of `success_count`, `skip_count`, `fail_count`. -/
theorem c1_processed_eq_sum :
    (∀ (st : PluginState) (dirs : List (String × DirEnv)),
      (do_autosub st dirs).1.process_count =
        (do_autosub st dirs).1.success_count +
        (do_autosub st dirs).1.skip_count +
        (do_autosub st dirs).1.fail_count) ∧
    (∀ (st : PluginState) (vf : Option String) (env : JobEnv),
      ((process_video_subtitle st vf env).1 = st) ∨
      ((process_video_subtitle st vf env).1.process_count = st.process_count + 1 ∧
        (((process_video_subtitle st vf env).1.success_count = st.success_count + 1 ∧
          (process_video_subtitle st vf env).1.skip_count = st.skip_count ∧
          (process_video_subtitle st vf env).1.fail_count = st.fail_count) ∨
         ((process_video_subtitle st vf env).1.success_count = st.success_count ∧
          (process_video_subtitle st vf env).1.skip_count = st.skip_count + 1 ∧
          (process_video_subtitle st vf env).1.fail_count = st.fail_count) ∨
         ((process_video_subtitle st vf env).1.success_count = st.success_count ∧
          (process_video_subtitle st vf env).1.skip_count = st.skip_count ∧
          (process_video_subtitle st vf env).1.fail_count = st.fail_count + 1)))) := by
  constructor
  · intro st dirs
    have h := loop_balance dirs
      { st with
        running := true
        process_count := 0
        skip_count := 0
        fail_count := 0
        success_count := 0 }
    simp only [do_autosub]
    dsimp only at h
    omega
  · exact job_counter_cases

/-- C6: every run of `_do_autosub`, normal or exceptional, ends with the
summary line carrying the final counters as its last event and with the
`_running` flag reset to `false`. -/
theorem c6_summary_and_reset (st : PluginState) (dirs : List (String × DirEnv)) :
    (do_autosub st dirs).1.running = false ∧
    (do_autosub st dirs).2.getLast? =
      some (Event.summary (do_autosub st dirs).1.success_count
        (do_autosub st dirs).1.skip_count
        (do_autosub st dirs).1.fail_count
        (do_autosub st dirs).1.process_count) := by
  constructor
  · simp only [do_autosub]
  · simp only [do_autosub]
    rw [List.getLast?_concat]



/-- C10: a falsy video-file argument (None or the empty path) makes the
per-file job return immediately: the state (hence all four counters) is
unchanged, no events are emitted (no external tool invocation, no
notification), and no exception escapes. -/
theorem c10_falsy_file_noop (st : PluginState) (vf : Option String)
    (env : JobEnv) (h : pyFalsyStr vf = true) :
    process_video_subtitle st vf env = (st, [], none) := by
  unfold process_video_subtitle
  simp [h]

/-- Witness for C10 at the concrete input `none`. -/
theorem c10_falsy_file_noop_witness :
    process_video_subtitle stBase none envOkEn = (stBase, [], none) :=
  c10_falsy_file_noop stBase none envOkEn rfl

/-- C2 counterexample: a 7-byte file under the 100-byte threshold leaves the
whole state unchanged — in particular the skipped counter is NOT incremented,
contradicting the claim that a below-threshold job is counted as Skipped. -/
theorem c2_counterexample :
    process_video_subtitle stBase (some "/media/movie.mkv")
        { envOkEn with getsize := .ok 7 } = (stBase, [], none) ∧
    (process_video_subtitle stBase (some "/media/movie.mkv")
        { envOkEn with getsize := .ok 7 }).1.skip_count ≠
      stBase.skip_count + 1 := by
  constructor
  · decide
  · decide

/-- C2 amended: a below-threshold file returns before any counter is touched:
the Transcriber is never invoked (no `generateCall` event — indeed no events
at all, so no notification either), the fail counter is not incremented, but
neither is the skipped counter: the whole state is unchanged. -/
theorem c2_below_threshold (st : PluginState) (v : String) (env : JobEnv)
    (hv : v ≠ "") (n t : Nat) (hs : env.getsize = .ok n)
    (ht : pyInt st.file_size = .ok t) (hlt : n < t) :
    process_video_subtitle st (some v) env = (st, [], none) := by
  unfold process_video_subtitle
  simp [pyFalsyStr, hv, hs, ht, hlt]

/-- Witness for C2 amended at a concrete input. -/
theorem c2_below_threshold_witness :
    process_video_subtitle stBase (some "/media/movie.mkv")
        { envOkEn with getsize := .ok 7 } = (stBase, [], none) :=
  c2_below_threshold stBase "/media/movie.mkv" { envOkEn with getsize := .ok 7 }
    (by decide) 7 100 rfl rfl (by decide)

/-- C3: when transcription succeeds and the translation step fails in the
absorbed way (`translate = .ok false`), the job still ends as Success: the
success counter is incremented, the fail counter is not, and no exception
escapes. -/
theorem c3_translate_failure_keeps_success (st : PluginState) (v : String)
    (env : JobEnv) (hv : v ≠ "") (n t : Nat) (hs : env.getsize = .ok n)
    (ht : pyInt st.file_size = .ok t) (hge : t ≤ n)
    (hex : env.target_exists = .ok false) (lang : String)
    (hgen : env.generate = .ok (true, lang)) (hzh : st.translate_zh = true)
    (htr : env.translate = .ok false) :
    (process_video_subtitle st (some v) env).1.success_count =
      st.success_count + 1 ∧
    (process_video_subtitle st (some v) env).1.fail_count = st.fail_count ∧
    (process_video_subtitle st (some v) env).2.2 = none := by
  have hnlt : ¬n < t := Nat.not_lt.mpr hge
  unfold process_video_subtitle
  simp [pyFalsyStr, hv, hs, ht, hnlt, hex, hgen, hzh, htr]

/-- Witness for C3 at a concrete input. -/
theorem c3_translate_failure_keeps_success_witness :
    (process_video_subtitle { stBase with translate_zh := true }
        (some "/media/movie.mkv")
        { envOkEn with translate := .ok false }).1.success_count =
      ({ stBase with translate_zh := true } : PluginState).success_count + 1 ∧
    (process_video_subtitle { stBase with translate_zh := true }
        (some "/media/movie.mkv")
        { envOkEn with translate := .ok false }).1.fail_count =
      ({ stBase with translate_zh := true } : PluginState).fail_count ∧
    (process_video_subtitle { stBase with translate_zh := true }
        (some "/media/movie.mkv")
        { envOkEn with translate := .ok false }).2.2 = none :=
  c3_translate_failure_keeps_success { stBase with translate_zh := true }
    "/media/movie.mkv" { envOkEn with translate := .ok false }
    (by decide) 1000 100 rfl rfl (by decide) rfl "en" rfl rfl rfl


/-- C4 counterexample: an exception raised by `os.path.getsize` during the
size check — which the source performs OUTSIDE the `try` block — escapes the
job uncaught: the job is not classified Failed (the state, in particular the
fail counter, is unchanged) and no stack trace is logged. -/
theorem c4_counterexample :
    process_video_subtitle stBase (some "/media/movie.mkv")
        { envOkEn with getsize := .error () } =
      (stBase, [], some ()) ∧
    (process_video_subtitle stBase (some "/media/movie.mkv")
        { envOkEn with getsize := .error () }).1.fail_count =
      stBase.fail_count := by
  constructor
  · decide
  · decide

/-- C4 amended: an exception raised at any state inside the job's `try` block
(existence check, transcription, translation) is caught at the job boundary:
the job ends normally, classified Failed with the fail counter incremented
exactly once and a stack trace logged.  An exception at the size-check state,
however, escapes the job with all counters unchanged; it is then caught at
the worker-pool layer, which never lets a job exception abort the remaining
jobs (`run_pool` and `process_folder_subtitle` with a successful scan never
propagate an exception). -/
theorem c4_boundary_catch (st : PluginState) (v : String) (env : JobEnv)
    (hv : v ≠ "") :
    (env.getsize = .error () →
      process_video_subtitle st (some v) env = (st, [], some ())) ∧
    (∀ n t, env.getsize = .ok n → pyInt st.file_size = .ok t → t ≤ n →
      (env.target_exists = .error () ∨
       (env.target_exists = .ok false ∧ env.generate = .error ()) ∨
       (∃ lang, env.target_exists = .ok false ∧
         env.generate = .ok (true, lang) ∧ st.translate_zh = true ∧
         env.translate = .error ())) →
      ((process_video_subtitle st (some v) env).2.2 = none ∧
       (process_video_subtitle st (some v) env).1.fail_count =
         st.fail_count + 1 ∧
       (process_video_subtitle st (some v) env).1.success_count =
         st.success_count ∧
       (process_video_subtitle st (some v) env).1.skip_count = st.skip_count ∧
       Event.stackTrace ∈ (process_video_subtitle st (some v) env).2.1)) ∧
    (∀ (st2 : PluginState) (files : List (Option String × JobEnv)),
      (process_folder_subtitle st2 (.ok files)).2.2 = none) := by
  refine ⟨?_, ?_, ?_⟩
  · intro hgs
    unfold process_video_subtitle
    simp [pyFalsyStr, hv, hgs]
  · intro n t hgs ht hge hcase
    have hnlt : ¬n < t := Nat.not_lt.mpr hge
    rcases hcase with hex | ⟨hex, hgen⟩ | ⟨lang, hex, hgen, hzh, htr⟩
    · unfold process_video_subtitle
      simp [pyFalsyStr, hv, hgs, ht, hnlt, hex]
    · unfold process_video_subtitle
      simp [pyFalsyStr, hv, hgs, ht, hnlt, hex, hgen]
    · unfold process_video_subtitle
      simp [pyFalsyStr, hv, hgs, ht, hnlt, hex, hgen, hzh, htr]
  · intro st2 files
    unfold process_folder_subtitle
    dsimp only
    split
    · rfl
    · rfl

/-- Witness for C4 amended: the size-check escape clause at a concrete
input. -/
theorem c4_boundary_catch_witness :
    process_video_subtitle stBase (some "/media/movie.mkv")
        { envOkEn with getsize := .error () } =
      (stBase, [], some ()) :=
  (c4_boundary_catch stBase "/media/movie.mkv"
      { envOkEn with getsize := .error () } (by decide)).1 rfl

/-- C8 counterexample: when the detected source language is "zh", the
translation source path and the translation output path coincide — the job
invokes the translator with identical source and destination
`/media/movie.zh.srt`, so the output is NOT distinct from the source for
every detected language. -/
theorem c8_counterexample :
    Event.translateCall "/media/movie.zh.srt" "/media/movie.zh.srt" ∈
      (process_video_subtitle { stBase with translate_zh := true }
        (some "/media/movie.mkv")
        { envOkEn with generate := .ok (true, "zh") }).2.1 := by
  decide

/-- Strings with the language tag spliced between dots are equal only when
the tags are. -/
theorem mkSrtPath_lang_inj (base l1 l2 : String)
    (h : mkSrtPath base l1 = mkSrtPath base l2) : l1 = l2 := by
  unfold mkSrtPath at h
  have hd : (base ++ "." ++ l1 ++ ".srt").data =
      (base ++ "." ++ l2 ++ ".srt").data := by rw [h]
  simp only [String.data_append] at hd
  have h2 := List.append_cancel_left (List.append_cancel_right hd)
  cases l1; cases l2
  exact congrArg String.mk h2

/-- C8 amended: whenever a job performs translation, the translator gets
source path `base.lang.srt` and output path `base.zh.srt` — the output
artifact is named by appending the target-language tag to the video's base
path — and for every detected language other than "zh" the output path is
distinct from the source path (when the detected language is "zh" the two
coincide, the case the counterexample exhibits). -/
theorem c8_translation_paths (st : PluginState) (v : String) (env : JobEnv)
    (hv : v ≠ "") (n t : Nat) (hs : env.getsize = .ok n)
    (ht : pyInt st.file_size = .ok t) (hge : t ≤ n)
    (hex : env.target_exists = .ok false) (lang : String)
    (hgen : env.generate = .ok (true, lang)) (hzh : st.translate_zh = true) :
    Event.translateCall (mkSrtPath (splitextBase v) lang)
        (mkSrtPath (splitextBase v) "zh") ∈
      (process_video_subtitle st (some v) env).2.1 ∧
    (lang ≠ "zh" →
      mkSrtPath (splitextBase v) lang ≠ mkSrtPath (splitextBase v) "zh") := by
  have hnlt : ¬n < t := Nat.not_lt.mpr hge
  constructor
  · cases htr : env.translate with
    | error e =>
      unfold process_video_subtitle
      simp [pyFalsyStr, hv, hs, ht, hnlt, hex, hgen, hzh, htr]
    | ok b =>
      unfold process_video_subtitle
      simp [pyFalsyStr, hv, hs, ht, hnlt, hex, hgen, hzh, htr]
  · intro hne hcontra
    exact hne (mkSrtPath_lang_inj (splitextBase v) lang "zh" hcontra)

/-- Witness for C8 amended at a concrete input with detected language
"en". -/
theorem c8_translation_paths_witness :
    Event.translateCall (mkSrtPath (splitextBase "/media/movie.mkv") "en")
        (mkSrtPath (splitextBase "/media/movie.mkv") "zh") ∈
      (process_video_subtitle { stBase with translate_zh := true }
        (some "/media/movie.mkv") envOkEn).2.1 ∧
    mkSrtPath (splitextBase "/media/movie.mkv") "en" ≠
      mkSrtPath (splitextBase "/media/movie.mkv") "zh" :=
  ⟨(c8_translation_paths { stBase with translate_zh := true } "/media/movie.mkv"
      envOkEn (by decide) 1000 100 rfl rfl (by decide) rfl "en" rfl rfl).1,
   (c8_translation_paths { stBase with translate_zh := true } "/media/movie.mkv"
      envOkEn (by decide) 1000 100 rfl rfl (by decide) rfl "en" rfl rfl).2
     (by decide)⟩

/-- C7 counterexample: a fully valid run-now request arriving while a run is
active (counters five successes in) is rejected — nothing is scheduled, the
active flag stays set — but the existing run's counters are zeroed by the
unconditional resets at the top of `init_plugin`, contradicting the claim
that a rejected request leaves the counters unchanged. -/
theorem c7_counterexample :
    (init_plugin { stBase with running := true, success_count := 5 }
        (some cfgBase) envInitBase).scheduled = none ∧
    (init_plugin { stBase with running := true, success_count := 5 }
        (some cfgBase) envInitBase).state.running = true ∧
    Event.warn "previous_run_active" ∈
      (init_plugin { stBase with running := true, success_count := 5 }
        (some cfgBase) envInitBase).events ∧
    (init_plugin { stBase with running := true, success_count := 5 }
        (some cfgBase) envInitBase).state.success_count = 0 ∧
    ({ stBase with running := true, success_count := 5 } :
        PluginState).success_count = 5 := by
  refine ⟨?_, ?_, ?_, ?_, ?_⟩ <;> decide

/-- C7 amended: a run-now request that reaches the active-run guard while a
run is active is rejected immediately with a warning: nothing is scheduled,
no exception escapes, and the `_running` flag is untouched — but the four
counters have been reset to zero by the attribute resets at the top of
`init_plugin`, so the existing run's counters are NOT left unchanged. -/
theorem c7_reject_when_running (st : PluginState) (c : PyConfig) (env : InitEnv)
    (hrun : st.running = true)
    (hgate : c.translate_zh = false ∨
      ∃ g, env.chatgpt = some g ∧ pyFalsyStr g.openai_key = false)
    (pl : String) (hpl : c.path_list = some pl)
    (hnow : c.run_now = true)
    (hne : env.set_order ≠ [])
    (fs : String) (hfs1 : c.file_size = some fs) (hfs2 : pyIsDigit fs = true)
    (hasr : c.translate_only = true ∨ env.check_asr = true) :
    (init_plugin st (some c) env).scheduled = none ∧
    (init_plugin st (some c) env).state.running = true ∧
    Event.warn "previous_run_active" ∈ (init_plugin st (some c) env).events ∧
    (init_plugin st (some c) env).escaped = none ∧
    (init_plugin st (some c) env).state.process_count = 0 ∧
    (init_plugin st (some c) env).state.skip_count = 0 ∧
    (init_plugin st (some c) env).state.fail_count = 0 ∧
    (init_plugin st (some c) env).state.success_count = 0 := by
  have hfsne : pyFalsyStr (some fs) = false := by
    unfold pyFalsyStr
    simp only [decide_eq_false_iff_not]
    intro h
    rw [h] at hfs2
    exact absurd hfs2 (by decide)
  have hne2 : env.set_order.isEmpty = false := by
    cases ho : env.set_order with
    | nil => exact absurd ho hne
    | cons a l => rfl
  unfold init_plugin initAfterChatGPT
  rcases hgate with hzh | ⟨g, hg, hkey⟩
  · rcases hasr with hto | hca
    · simp [hzh, hpl, hnow, hne2, hfs1, hfs2, hfsne, hrun, hto, resetConfigState]
    · simp [hzh, hpl, hnow, hne2, hfs1, hfs2, hfsne, hrun, hca, resetConfigState]
  · rcases hasr with hto | hca
    · cases hczh : c.translate_zh <;>
        simp [hg, hkey, hpl, hnow, hne2, hfs1, hfs2, hfsne, hrun, hto,
          resetConfigState]
    · cases hczh : c.translate_zh <;>
        simp [hg, hkey, hpl, hnow, hne2, hfs1, hfs2, hfsne, hrun, hca,
          resetConfigState]

/-- Witness for C7 amended at a concrete input. -/
theorem c7_reject_when_running_witness :
    (init_plugin { stBase with running := true, success_count := 5 }
        (some cfgBase) envInitBase).scheduled = none ∧
    (init_plugin { stBase with running := true, success_count := 5 }
        (some cfgBase) envInitBase).state.running = true ∧
    Event.warn "previous_run_active" ∈
      (init_plugin { stBase with running := true, success_count := 5 }
        (some cfgBase) envInitBase).events ∧
    (init_plugin { stBase with running := true, success_count := 5 }
        (some cfgBase) envInitBase).escaped = none ∧
    (init_plugin { stBase with running := true, success_count := 5 }
        (some cfgBase) envInitBase).state.process_count = 0 ∧
    (init_plugin { stBase with running := true, success_count := 5 }
        (some cfgBase) envInitBase).state.skip_count = 0 ∧
    (init_plugin { stBase with running := true, success_count := 5 }
        (some cfgBase) envInitBase).state.fail_count = 0 ∧
    (init_plugin { stBase with running := true, success_count := 5 }
        (some cfgBase) envInitBase).state.success_count = 0 :=
  c7_reject_when_running { stBase with running := true, success_count := 5 }
    cfgBase envInitBase rfl (Or.inl rfl) "/media" rfl rfl (by decide)
    "100" rfl (by decide) (Or.inl rfl)

/-- C9 counterexample: a configuration with run-now set and translation to
Chinese enabled, arriving while the ChatGPT dependency is missing, makes
`init_plugin` return before the run-now clearing: `update_config` is never
called, so the stored configuration keeps `run_now = True`. -/
theorem c9_counterexample :
    (init_plugin stBase (some { cfgBase with translate_zh := true })
        envInitBase).persisted = none ∧
    ({ cfgBase with translate_zh := true } : PyConfig).run_now = true := by
  constructor
  · decide
  · decide

/-- C9 amended: provided the entry point reaches the run-now handling — the
`path_list` key is present (so the split does not raise) and the ChatGPT
dependency gate passes (translation off, or a ChatGPT configuration with a
non-falsy key) — a set run-now flag is cleared and the updated configuration
persisted via `update_config`, regardless of the outcomes of the subsequent
path/size validation, engine check and active-run guard; when the gate fails
first, the method returns without persisting anything. -/
theorem c9_run_now_cleared (st : PluginState) (c : PyConfig) (env : InitEnv)
    (hnow : c.run_now = true) (pl : String) (hpl : c.path_list = some pl)
    (hgate : c.translate_zh = false ∨
      ∃ g, env.chatgpt = some g ∧ pyFalsyStr g.openai_key = false) :
    (init_plugin st (some c) env).persisted = some { c with run_now := false } := by
  unfold init_plugin initAfterChatGPT
  rcases hgate with hzh | ⟨g, hg, hkey⟩
  · simp only [hzh, hpl, hnow]
    repeat' split <;> simp_all
  · cases hczh : c.translate_zh
    · simp only [hczh, hpl, hnow]
      repeat' split <;> simp_all
    · simp only [hczh, hg, hkey, hpl, hnow]
      repeat' split <;> simp_all

/-- Witness for C9 amended at a concrete input: the run is rejected (a run is
active) yet the persisted configuration has run-now cleared. -/
theorem c9_run_now_cleared_witness :
    (init_plugin { stBase with running := true } (some cfgBase)
        envInitBase).persisted = some { cfgBase with run_now := false } :=
  c9_run_now_cleared { stBase with running := true } cfgBase envInitBase
    rfl "/media" rfl (Or.inl rfl)


theorem job_preserves_cfg (st : PluginState) (vf : Option String)
    (env : JobEnv) :
    jobCfgOf (process_video_subtitle st vf env).1 = jobCfgOf st ∧
    (process_video_subtitle st vf env).1.running = st.running := by
  unfold process_video_subtitle
  dsimp only
  repeat' split
  all_goals exact ⟨rfl, rfl⟩

theorem job_snd_congr (st1 st2 : PluginState) (vf : Option String)
    (env : JobEnv) (hcfg : jobCfgOf st1 = jobCfgOf st2) :
    (process_video_subtitle st1 vf env).2 =
      (process_video_subtitle st2 vf env).2 := by
  obtain ⟨hfs, hzh, hto, hsn⟩ :
      st1.file_size = st2.file_size ∧ st1.translate_zh = st2.translate_zh ∧
      st1.translate_only = st2.translate_only ∧
      st1.send_notify = st2.send_notify := by
    unfold jobCfgOf at hcfg
    simp only [Prod.mk.injEq] at hcfg
    exact ⟨hcfg.1, hcfg.2.1, hcfg.2.2.1, hcfg.2.2.2⟩
  unfold process_video_subtitle
  dsimp only
  rw [hfs, hzh, hto, hsn]
  cases pyFalsyStr vf
  case true => rfl
  case false =>
    simp only [Bool.false_eq_true, if_false]
    cases env.getsize with
    | error e => rfl
    | ok size =>
      cases pyInt st2.file_size with
      | error e => rfl
      | ok threshold =>
        by_cases hlt : size < threshold
        · simp only [hlt, if_true]
        · simp only [hlt, if_false]
          cases env.target_exists with
          | error e => rfl
          | ok b =>
            cases b
            · cases env.generate with
              | error e => rfl
              | ok rl =>
                obtain ⟨ret, lang⟩ := rl
                cases ret
                · cases st2.translate_only <;> rfl
                · cases st2.translate_zh
                  · rfl
                  · cases env.translate with
                    | error e => rfl
                    | ok b2 => rfl
            · rfl

theorem run_pool_preserves_cfg (files : List (Option String × JobEnv)) :
    ∀ st : PluginState, jobCfgOf (run_pool st files).1 = jobCfgOf st ∧
      (run_pool st files).1.running = st.running := by
  induction files with
  | nil => intro st; exact ⟨rfl, rfl⟩
  | cons fe rest ih =>
    intro st
    have h1 := job_preserves_cfg st fe.1 fe.2
    have h2 := ih (process_video_subtitle st fe.1 fe.2).1
    simp only [run_pool]
    exact ⟨h2.1.trans h1.1, h2.2.trans h1.2⟩

theorem run_pool_events_congr (files : List (Option String × JobEnv)) :
    ∀ st1 st2 : PluginState, jobCfgOf st1 = jobCfgOf st2 →
      (run_pool st1 files).2 = (run_pool st2 files).2 := by
  induction files with
  | nil => intro st1 st2 _; rfl
  | cons fe rest ih =>
    intro st1 st2 hcfg
    have hj := job_snd_congr st1 st2 fe.1 fe.2 hcfg
    have hcfg2 : jobCfgOf (process_video_subtitle st1 fe.1 fe.2).1 =
        jobCfgOf (process_video_subtitle st2 fe.1 fe.2).1 :=
      ((job_preserves_cfg st1 fe.1 fe.2).1.trans hcfg).trans
        (job_preserves_cfg st2 fe.1 fe.2).1.symm
    have ht := ih (process_video_subtitle st1 fe.1 fe.2).1
      (process_video_subtitle st2 fe.1 fe.2).1 hcfg2
    simp only [run_pool]
    rw [hj, ht]

theorem folder_preserves_cfg (st : PluginState)
    (scan : Except Unit (List (Option String × JobEnv))) :
    jobCfgOf (process_folder_subtitle st scan).1 = jobCfgOf st ∧
    (process_folder_subtitle st scan).1.running = st.running := by
  unfold process_folder_subtitle
  match scan with
  | .error e => exact ⟨rfl, rfl⟩
  | .ok files =>
    dsimp only
    split
    · exact ⟨rfl, rfl⟩
    · exact run_pool_preserves_cfg files st

theorem folder_events_congr (st1 st2 : PluginState)
    (scan : Except Unit (List (Option String × JobEnv)))
    (hcfg : jobCfgOf st1 = jobCfgOf st2) :
    (process_folder_subtitle st1 scan).2 =
      (process_folder_subtitle st2 scan).2 := by
  unfold process_folder_subtitle
  match scan with
  | .error e => rfl
  | .ok files =>
    dsimp only
    split
    · rfl
    · have h := run_pool_events_congr files st1 st2 hcfg
      rw [h]

theorem folder_no_escape (st : PluginState)
    (scan : Except Unit (List (Option String × JobEnv)))
    (h : scan ≠ Except.error ()) :
    (process_folder_subtitle st scan).2.2 = none := by
  unfold process_folder_subtitle
  match scan with
  | .error e => exact absurd rfl h
  | .ok files =>
    dsimp only
    split
    · rfl
    · rfl

theorem loop_events_spec (dirs : List (String × DirEnv)) :
    ∀ st st0 : PluginState, jobCfgOf st = jobCfgOf st0 →
      (∀ d ∈ dirs, d.2.scan ≠ Except.error ()) →
      (do_autosub_loop st dirs).2.1 = (dirs.map (dirBlock st0)).flatten ∧
      (do_autosub_loop st dirs).2.2 = none ∧
      jobCfgOf (do_autosub_loop st dirs).1 = jobCfgOf st := by
  induction dirs with
  | nil => intro st st0 _ _; exact ⟨rfl, rfl, rfl⟩
  | cons d rest ih =>
    intro st st0 hcfg hscan
    have hd : d.2.scan ≠ Except.error () := hscan d (List.mem_cons_self d rest)
    have hrest : ∀ x ∈ rest, x.2.scan ≠ Except.error () :=
      fun x hx => hscan x (List.mem_cons_of_mem d hx)
    obtain ⟨path, denv⟩ := d
    have hinvalid := ih st st0 hcfg hrest
    simp only [do_autosub_loop, dirBlock, List.map_cons, List.flatten]
    cases hex : denv.path_exists with
    | false =>
      simp only [if_false, Bool.false_eq_true]
      exact ⟨by rw [hinvalid.1]; rfl, hinvalid.2.1, hinvalid.2.2⟩
    | true =>
      cases hdir : denv.is_dir with
      | false =>
        simp only [if_true, if_false, Bool.false_eq_true]
        exact ⟨by rw [hinvalid.1]; rfl, hinvalid.2.1, hinvalid.2.2⟩
      | true =>
        cases habs : denv.is_abs with
        | false =>
          simp only [if_true, if_false, Bool.false_eq_true]
          exact ⟨by rw [hinvalid.1]; rfl, hinvalid.2.1, hinvalid.2.2⟩
        | true =>
          simp only [if_true]
          have hesc := folder_no_escape st denv.scan hd
          have hev := folder_events_congr st st0 denv.scan hcfg
          have hpres := folder_preserves_cfg st denv.scan
          have hih := ih (process_folder_subtitle st denv.scan).1 st0
            (hpres.1.trans hcfg) hrest
          rw [hesc]
          dsimp only
          refine ⟨?_, hih.2.1, hih.2.2.trans hpres.1⟩
          have hev1 : (process_folder_subtitle st denv.scan).2.1 =
              (process_folder_subtitle st0 denv.scan).2.1 := by rw [hev]
          rw [hih.1, hev1]
          rfl

/-- C5 amended: the run processes directories strictly sequentially in the
order of the `path_list` it is handed — the trace is exactly the
concatenation of one contiguous block per directory, in list order, each
block fully emitted (its worker pool drained) before the next directory
starts, followed by the summary.  However that `path_list` is
`list(set(...))` of the configured lines, whose order is NOT the configured
order (see the counterexample). -/
theorem c5_sequential_blocks (st : PluginState) (dirs : List (String × DirEnv))
    (hscan : ∀ d ∈ dirs, d.2.scan ≠ Except.error ()) :
    (do_autosub st dirs).2 =
      (dirs.map (dirBlock st)).flatten ++
        [Event.summary (do_autosub st dirs).1.success_count
          (do_autosub st dirs).1.skip_count
          (do_autosub st dirs).1.fail_count
          (do_autosub st dirs).1.process_count] := by
  have h := loop_events_spec dirs
    { st with
      running := true
      process_count := 0
      skip_count := 0
      fail_count := 0
      success_count := 0 } st rfl hscan
  unfold do_autosub
  dsimp only
  rw [h.1, h.2.1]
  simp

/-- Witness for C5 amended at a concrete run of two directories, the second
holding one file that is processed successfully. -/
theorem c5_sequential_blocks_witness :
    ((do_autosub stBase [("/a", dirMissing), ("/media", dirOkOneFile)]).2 =
      (([("/a", dirMissing), ("/media", dirOkOneFile)].map
          (dirBlock stBase)).flatten ++
        [Event.summary
          (do_autosub stBase
            [("/a", dirMissing), ("/media", dirOkOneFile)]).1.success_count
          (do_autosub stBase
            [("/a", dirMissing), ("/media", dirOkOneFile)]).1.skip_count
          (do_autosub stBase
            [("/a", dirMissing), ("/media", dirOkOneFile)]).1.fail_count
          (do_autosub stBase
            [("/a", dirMissing), ("/media", dirOkOneFile)]).1.process_count])) ∧
    (do_autosub stBase
      [("/a", dirMissing), ("/media", dirOkOneFile)]).1.success_count = 1 :=
  ⟨c5_sequential_blocks stBase [("/a", dirMissing), ("/media", dirOkOneFile)]
    (by decide), by decide⟩

/-- C5 counterexample: with configured `path_list` lines "/a" then "/b", the
order `["/b", "/a"]` is a legitimate result of Python's
`list(set(...))` (same elements, no duplicates), `init_plugin` schedules the
run on it, and the run then begins the directories in that order — NOT in the
configured order `["/a", "/b"]`. -/
theorem c5_counterexample :
    SetRealizes (pySplitNl ("/a\n/b").data) ["/b", "/a"] ∧
    pySplitNl ("/a\n/b").data = ["/a", "/b"] ∧
    (init_plugin stBase (some { cfgBase with path_list := some "/a\n/b" })
        { envInitBase with set_order := ["/b", "/a"] }).scheduled =
      some ["/b", "/a"] ∧
    dirStartsOf (do_autosub stBase
        [("/b", dirMissing), ("/a", dirMissing)]).2 = ["/b", "/a"] ∧
    (["/b", "/a"] : List String) ≠ ["/a", "/b"] := by
  refine ⟨?_, ?_, ?_, ?_, ?_⟩ <;> decide

end AutoSub
